import Mathlib

/-!
Shallow embedding of the escvp21emulator command-processing core
(src/commands.rs, src/codec.rs, src/escvp21.rs).

Modelling conventions:
* Wall-clock time is an explicit `now : Nat` argument (seconds); the Rust
  code reads `SystemTime::now()` / `timer.elapsed()`.  `elapsed` becomes
  `now - startedAt` (truncated subtraction; the Rust code would panic on a
  clock running backwards, a case outside this model).
* Rust `Result` becomes `Except`, `Option` stays `Option`.
* The `regex::Regex` values of the source are embedded as a small
  first-order regex AST together with an executable matcher whose
  `isMatch` is an unanchored substring match, as in the `regex` crate.
  Character classes are modelled over their ASCII semantics.
* `HashMap::from` with duplicate keys keeps the last entry; `hmFrom`
  reproduces that.
* A Rust panic (`unwrap` of `None`) is modelled as the value `none` of the
  surrounding `Option`.
-/

namespace Escvp21

/-- The error enum of src/commands.rs. -/
inductive CommandError
  | invalidCommand
  | invalidQuery
  | invalidValue
  | invalidPowerState
deriving DecidableEq, Repr

/-- First-order character classes appearing in the source regexes. -/
inductive CClass
  | azUpper
  | upperDigit
  | digit
  | rangeC (lo hi : Char)
  | lit (c : Char)
deriving DecidableEq, Repr

/-- Membership test of a character class (ASCII semantics). -/
def CClass.test : CClass → Char → Bool
  | CClass.azUpper, c => 65 ≤ c.toNat && c.toNat ≤ 90
  | CClass.upperDigit, c => (65 ≤ c.toNat && c.toNat ≤ 90) || (48 ≤ c.toNat && c.toNat ≤ 57)
  | CClass.digit, c => 48 ≤ c.toNat && c.toNat ≤ 57
  | CClass.rangeC lo hi, c => lo.toNat ≤ c.toNat && c.toNat ≤ hi.toNat
  | CClass.lit d, c => c = d

/-- Regex AST covering the patterns used by src/commands.rs. -/
inductive RE
  | eps
  | cls (c : CClass)
  | seq (a b : RE)
  | alt (a b : RE)
  | plus (r : RE)
deriving DecidableEq, Repr

/-- Size of a regex term, used to bound the matcher fuel. -/
def RE.size : RE → Nat
  | RE.eps => 1
  | RE.cls _ => 1
  | RE.seq a b => a.size + b.size + 1
  | RE.alt a b => a.size + b.size + 1
  | RE.plus r => r.size + 1

/-- Fuelled nondeterministic matcher: the list of suffixes left after the
regex has matched some leading part of the input. -/
def suffixesF : Nat → RE → List Char → List (List Char)
  | 0, _, _ => []
  | _ + 1, RE.eps, s => [s]
  | _ + 1, RE.cls _, [] => []
  | _ + 1, RE.cls cc, c :: rest => if cc.test c then [rest] else []
  | f + 1, RE.seq a b, s => (suffixesF f a s).flatMap (suffixesF f b)
  | f + 1, RE.alt a b, s => suffixesF f a s ++ suffixesF f b s
  | f + 1, RE.plus r, s =>
      (suffixesF f r s).flatMap (fun s2 => s2 :: suffixesF f (RE.plus r) s2)

/-- Embeds `Regex::is_match`: unanchored substring match, every start offset is
tried. -/
def isMatch (r : RE) (s : String) : Bool :=
  let cs := s.toList
  let fuel := (r.size + 1) * (cs.length + 2)
  (List.range (cs.length + 1)).any fun i => !(suffixesF fuel r (cs.drop i)).isEmpty

/-- Literal string as a regex. -/
def strRE (s : String) : RE :=
  s.toList.foldr (fun c acc => RE.seq (RE.cls (CClass.lit c)) acc) RE.eps

/-- Greedy option `a?`. -/
def optRE (a : RE) : RE := RE.alt a RE.eps

/-- The record behind `struct Param` of src/commands.rs.  The Rust struct
borrows `default : &str`; the embedding stores the string. -/
structure Param where
  default : String
  value : Option String
  validation : Option RE
  supported_in_power_off : Bool
deriving DecidableEq, Repr

/-- Embeds `Param::new`.  The Rust constructor takes the validation as a pattern
string, an empty pattern meaning "no validation"; the embedding takes the
already-translated `Option RE` directly. -/
def Param.new (dflt : String) (validation : Option RE) (flag : Bool) : Param :=
  { default := dflt
    value := if dflt.length > 0 then some dflt else none
    validation := validation
    supported_in_power_off := flag }

/-- Embeds `Param::get_value`. -/
def Param.get_value (p : Param) : Except CommandError String :=
  match p.value with
  | some v => if v.length > 0 then Except.ok v else Except.error CommandError.invalidCommand
  | none => Except.error CommandError.invalidCommand

/-- Embeds `Param::set_value`; returns the updated record in place of
the in-place mutation done in Rust. -/
def Param.set_value (p : Param) (value : String) : Except CommandError Param :=
  match p.validation with
  | some validation =>
      if isMatch validation value then
        if p.value.isSome then
          let result := if value = "INIT" then p.default else value
          Except.ok { p with value := some result }
        else
          Except.ok p
      else
        Except.error CommandError.invalidValue
  | none => Except.error CommandError.invalidCommand

/-- Embeds `enum PowerState` of src/commands.rs; timestamps are seconds (`Nat`). -/
inductive PowerState
  | powerOff
  | warming (startedAt : Nat)
  | cooling (startedAt : Nat)
  | lampOn
deriving DecidableEq, Repr

/-- Embeds `PowerState::power_up`; `now` replaces `SystemTime::now()`. -/
def PowerState.power_up (s : PowerState) (now : Nat) : PowerState :=
  match s with
  | PowerState.powerOff => PowerState.warming now
  | PowerState.warming t => PowerState.warming t
  | PowerState.cooling t => PowerState.cooling t
  | PowerState.lampOn => PowerState.lampOn

/-- Embeds `PowerState::power_down`. -/
def PowerState.power_down (s : PowerState) (now : Nat) : PowerState :=
  match s with
  | PowerState.powerOff => PowerState.powerOff
  | PowerState.warming t => PowerState.warming t
  | PowerState.cooling t => PowerState.cooling t
  | PowerState.lampOn => PowerState.cooling now

/-- Embeds `PowerState::as_str`. -/
def PowerState.as_str : PowerState → String
  | PowerState.powerOff => "00"
  | PowerState.warming _ => "02"
  | PowerState.cooling _ => "03"
  | PowerState.lampOn => "01"

/-- Source constant `TWO_CHARS`, the pattern `[A-Z0-9]` twice. -/
def TWO_CHARS : RE := RE.seq (RE.cls CClass.upperDigit) (RE.cls CClass.upperDigit)

/-- Source constant `TWO_DIGITS`, the pattern of two decimal digits. -/
def TWO_DIGITS : RE := RE.seq (RE.cls CClass.digit) (RE.cls CClass.digit)

/-- Source constant `ON_OFF`, the pattern `(OFF|ON)`. -/
def ON_OFF : RE := RE.alt (strRE "OFF") (strRE "ON")

/-- The `KEY` validation pattern: two upper/digit characters, or `INIT`. -/
def KEY_RE : RE := RE.alt TWO_CHARS (strRE "INIT")

/-- The `VOL` validation pattern: one or more decimal digits. -/
def DIGITS_RE : RE := RE.plus (RE.cls CClass.digit)

/-- The `ZOOM` validation pattern: one to three decimal digits (greedy). -/
def ZOOM_RE : RE :=
  RE.seq (RE.cls CClass.digit)
    (optRE (RE.seq (RE.cls CClass.digit) (optRE (RE.cls CClass.digit))))

/-- The `IMGSHIFT` validation pattern: optional minus, digit 0-2, space,
optional minus, digit 0-2. -/
def IMGSHIFT_RE : RE :=
  RE.seq (optRE (RE.cls (CClass.lit (Char.ofNat 45))))
    (RE.seq (RE.cls (CClass.rangeC (Char.ofNat 48) (Char.ofNat 50)))
      (RE.seq (RE.cls (CClass.lit (Char.ofNat 32)))
        (RE.seq (optRE (RE.cls (CClass.lit (Char.ofNat 45))))
          (RE.cls (CClass.rangeC (Char.ofNat 48) (Char.ofNat 50))))))

def LAMP_HOURS_DEFAULT : String := "100"

def AUTOHOME_DEFAULT : String := "00"

/-- Embeds the `HashMap` insert: a later binding for the same key overwrites. -/
def hmInsert (l : List (String × Param)) (k : String) (v : Param) : List (String × Param) :=
  match l with
  | [] => [(k, v)]
  | (k2, v2) :: rest => if k2 = k then (k, v) :: rest else (k2, v2) :: hmInsert rest k v

/-- Embeds `HashMap::from`: sequential inserts, so duplicate keys resolve to the
last entry of the literal. -/
def hmFrom (entries : List (String × Param)) : List (String × Param) :=
  entries.foldl (fun acc kv => hmInsert acc kv.1 kv.2) []

/-- Embeds `HashMap::get`: keys are unique after `hmFrom`, first match wins. -/
def hmGet (l : List (String × Param)) (k : String) : Option Param :=
  match l with
  | [] => none
  | (k2, v) :: rest => if k2 = k then some v else hmGet rest k

/-- The literal parameter table of `CommandProcessor::new`, in source
order, duplicates included. -/
def actualCommands : List (String × Param) :=
  hmFrom [
    ("SNO", Param.new "1234567890" none true),
    ("LAMP", Param.new LAMP_HOURS_DEFAULT none false),
    ("KEY", Param.new "" (some KEY_RE) false),
    ("FREEZE", Param.new "OFF" (some ON_OFF) false),
    ("FASTBOOT", Param.new "01" (some TWO_DIGITS) false),
    ("AUTOHOME", Param.new AUTOHOME_DEFAULT (some TWO_CHARS) false),
    ("SIGNAL", Param.new "01" none false),
    ("ONTIME", Param.new "110" none false),
    ("LAMP", Param.new "100" none false),
    ("ERR", Param.new "00" none true),
    ("SOURCE", Param.new "00" (some TWO_CHARS) false),
    ("MUTE", Param.new "0000" (some ON_OFF) false),
    ("VOL", Param.new "90" (some DIGITS_RE) false),
    ("AUTOHOME", Param.new "00" (some TWO_CHARS) false),
    ("ZOOM", Param.new "0" (some ZOOM_RE) false),
    ("HREVERSE", Param.new "ON" (some ON_OFF) false),
    ("VREVERSE", Param.new "ON" (some ON_OFF) false),
    ("IMGSHIFT", Param.new "0 1" (some IMGSHIFT_RE) false),
    ("REFRESHTIME", Param.new "00" (some TWO_DIGITS) false)]

/-- Embeds `struct CommandProcessor`; durations are seconds. -/
structure CommandProcessor where
  commands : List (String × Param)
  power_state : PowerState
  warming : Nat
  cooling : Nat
deriving DecidableEq, Repr

/-- Embeds `CommandProcessor::new`. -/
def CommandProcessor.new (warming cooling : Nat) : CommandProcessor :=
  { commands := actualCommands
    power_state := PowerState.powerOff
    warming := warming
    cooling := cooling }

/-- Embeds `CommandProcessor::process_power_set`. -/
def processPowerSet (now : Nat) (cp : CommandProcessor) (value : String) :
    Except CommandError Unit × CommandProcessor :=
  if value = "ON" then
    (Except.ok (), { cp with power_state := cp.power_state.power_up now })
  else if value = "OFF" then
    (Except.ok (), { cp with power_state := cp.power_state.power_down now })
  else
    (Except.error CommandError.invalidCommand, cp)

/-- Embeds `CommandProcessor::get_power_state`: runs the timed advance, then
returns (a clone of) the current state. -/
def getPowerState (now : Nat) (cp : CommandProcessor) : PowerState × CommandProcessor :=
  let cp2 :=
    match cp.power_state with
    | PowerState.warming t =>
        if now - t > cp.warming then { cp with power_state := PowerState.lampOn } else cp
    | PowerState.cooling t =>
        if now - t > cp.cooling then { cp with power_state := PowerState.powerOff } else cp
    | _ => cp
  (cp2.power_state, cp2)

/-- Embeds `CommandProcessor::process_power_query`. -/
def processPowerQuery (now : Nat) (cp : CommandProcessor) : String × CommandProcessor :=
  let (st, cp2) := getPowerState now cp
  (st.as_str, cp2)

/-- Embeds `CommandProcessor::process_query`. -/
def processQuery (now : Nat) (cp : CommandProcessor) (command : String) :
    Except CommandError String × CommandProcessor :=
  let (value, cp2) :=
    if command = "PWR" then
      let (s, cp2) := processPowerQuery now cp
      (Except.ok s, cp2)
    else
      let (power_state, cp2) := getPowerState now cp
      match hmGet cp2.commands command with
      | some param =>
          match param.supported_in_power_off, power_state with
          | true, _ => (param.get_value, cp2)
          | false, PowerState.lampOn => (param.get_value, cp2)
          | _, _ => (Except.error CommandError.invalidPowerState, cp2)
      | none => (Except.error CommandError.invalidCommand, cp2)
  match value with
  | Except.ok v => (Except.ok (command ++ "=" ++ v), cp2)
  | Except.error e => (Except.error e, cp2)

/-- Embeds `CommandProcessor::process_set`. -/
def processSet (now : Nat) (cp : CommandProcessor) (command value : String) :
    Except CommandError Unit × CommandProcessor :=
  if command = "PWR" then
    processPowerSet now cp value
  else
    let (power_state, cp2) := getPowerState now cp
    match hmGet cp2.commands command with
    | some param =>
        match param.supported_in_power_off, power_state with
        | true, _ =>
            (match param.set_value value with
             | Except.ok p2 => (Except.ok (), { cp2 with commands := hmInsert cp2.commands command p2 })
             | Except.error e => (Except.error e, cp2))
        | false, PowerState.lampOn =>
            (match param.set_value value with
             | Except.ok p2 => (Except.ok (), { cp2 with commands := hmInsert cp2.commands command p2 })
             | Except.error e => (Except.error e, cp2))
        | _, _ => (Except.error CommandError.invalidPowerState, cp2)
    | none => (Except.error CommandError.invalidCommand, cp2)

/-- Backtracking over the greedy `[A-Z0-9]+` group of the set-command
regex at one start position: `c` is the leading `[A-Z]` character, `rest`
the characters after it, and the counter the candidate group length,
counted down from the maximal `[A-Z0-9]` run.  After the group a literal
space must follow, then the greedy `(.+)` group: the maximal run of
non-newline characters, which must be nonempty. -/
def tryName (c : Char) (rest : List Char) : Nat → Option (List Char × List Char)
  | 0 => none
  | j + 1 =>
      let name := rest.take (j + 1)
      let after := rest.drop (j + 1)
      match after with
      | sp :: tail =>
          if sp = Char.ofNat 32 then
            let value := tail.takeWhile (fun ch => ch ≠ Char.ofNat 10)
            if value.isEmpty then tryName c rest j else some (c :: name, value)
          else tryName c rest j
      | [] => tryName c rest j

/-- Leftmost match of the set-command regex: start offsets are tried left
to right. -/
def capturesAux : List Char → Option (List Char × List Char)
  | [] => none
  | c :: rest =>
      if CClass.test CClass.azUpper c then
        let m := (rest.takeWhile (CClass.test CClass.upperDigit)).length
        match tryName c rest m with
        | some cap => some cap
        | none => capturesAux rest
      else capturesAux rest

/-- Embeds `Regex::captures` for the fixed pattern of `process_message`: group 1
is `[A-Z][A-Z0-9]+` and group 2 is `(.+)`, separated by one space. -/
def capturesSetCmd (message : String) : Option (String × String) :=
  (capturesAux message.toList).map fun cap => (String.mk cap.1, String.mk cap.2)

/-- Embeds `message.ends_with("?")`: the last character is `?`.  (`?` is one
byte, so this is also what the byte slice of the query branch drops.) -/
def endsWithQmark (message : String) : Bool :=
  match message.toList.getLast? with
  | some c => c = Char.ofNat 63
  | none => false

/-- Embeds `CommandProcessor::process_message`.  The outer `Option` models the
`unwrap()` the source performs on the captures: `none` is the panic on a
message that neither ends in `?` nor matches the set-command regex.  The
query branch passes `&message[0..message.len()-1]`, i.e. the message
without its final one-byte `?`. -/
def processMessage (now : Nat) (cp : CommandProcessor) (message : String) :
    Option (Except CommandError (Option String) × CommandProcessor) :=
  if endsWithQmark message then
    let (res, cp2) := processQuery now cp (String.mk message.toList.dropLast)
    some (match res with
          | Except.ok v => Except.ok (some v)
          | Except.error e => Except.error e, cp2)
  else
    match capturesSetCmd message with
    | some (command, value) =>
        let (res, cp2) := processSet now cp command value
        some (match res with
              | Except.ok _ => Except.ok none
              | Except.error e => Except.error e, cp2)
    | none => none

/-- Strict UTF-8 decoding of a byte list, as `std::str::from_utf8`:
overlong encodings, surrogates and code points above 0x10FFFF are
rejected. -/
def utf8Decode : List Nat → Option (List Char)
  | [] => some []
  | b :: rest =>
      if b < 128 then
        (utf8Decode rest).map (fun cs => Char.ofNat b :: cs)
      else if b < 194 then
        none
      else if b < 224 then
        match rest with
        | b2 :: rest2 =>
            if 128 ≤ b2 && b2 < 192 then
              (utf8Decode rest2).map (fun cs => Char.ofNat ((b % 32) * 64 + b2 % 64) :: cs)
            else none
        | [] => none
      else if b < 240 then
        match rest with
        | b2 :: b3 :: rest3 =>
            if (128 ≤ b2 && b2 < 192) && (128 ≤ b3 && b3 < 192)
               && !(b = 224 && b2 < 160) && !(b = 237 && 160 ≤ b2) then
              (utf8Decode rest3).map
                (fun cs => Char.ofNat ((b % 16) * 4096 + (b2 % 64) * 64 + b3 % 64) :: cs)
            else none
        | _ => none
      else if b < 245 then
        match rest with
        | b2 :: b3 :: b4 :: rest4 =>
            if (128 ≤ b2 && b2 < 192) && (128 ≤ b3 && b3 < 192) && (128 ≤ b4 && b4 < 192)
               && !(b = 240 && b2 < 144) && !(b = 244 && 144 ≤ b2) then
              (utf8Decode rest4).map
                (fun cs =>
                  Char.ofNat ((b % 8) * 262144 + (b2 % 64) * 4096 + (b3 % 64) * 64 + b4 % 64) :: cs)
            else none
        | _ => none
      else none

/-- Embeds `struct Codec` of src/codec.rs and src/escvp21.rs (identical): the
internal byte buffer. -/
structure Codec where
  buffer : List Nat
deriving DecidableEq, Repr

/-- Embeds `Codec::decode`: append the chunk, look for the first `0x0D`; when one
is found, return the bytes before it decoded as UTF-8 (`Except.error ()`
models the io::Error on invalid UTF-8) and then clear the whole buffer. -/
def Codec.decode (codec : Codec) (src : List Nat) : Except Unit (Option String) × Codec :=
  let buf := codec.buffer ++ src
  match buf.findIdx? (fun b => b = 13) with
  | some n =>
      let line := buf.take n
      let str_result :=
        match utf8Decode line with
        | some cs => Except.ok (some (String.mk cs))
        | none => Except.error ()
      (str_result, { buffer := [] })
  | none => (Except.ok none, { buffer := buf })

/-- UTF-8 encoding of one character, to model `str::as_bytes`. -/
def utf8EncodeChar (c : Char) : List Nat :=
  let n := c.toNat
  if n < 128 then [n]
  else if n < 2048 then [192 + n / 64, 128 + n % 64]
  else if n < 65536 then [224 + n / 4096, 128 + (n / 64) % 64, 128 + n % 64]
  else [240 + n / 262144, 128 + (n / 4096) % 64, 128 + (n / 64) % 64, 128 + n % 64]

/-- Embeds `String::as_bytes`. -/
def strBytes (s : String) : List Nat := s.toList.flatMap utf8EncodeChar

/-- The bytes the I/O loop `start` (src/escvp21.rs) writes for one decoded
frame: the reply payload on success, nothing for an empty reply, `ERR` on
a processor error — always followed by the write of the two bytes
`\r:`. -/
def replyBytes (r : Except CommandError (Option String)) : List Nat :=
  (match r with
   | Except.ok (some output) => strBytes output
   | Except.ok none => []
   | Except.error _ => strBytes "ERR") ++ [13, 58]

/-! ## Helper lemmas -/

theorem getPowerState_fst (now : Nat) (cp : CommandProcessor) :
    (getPowerState now cp).1 = (getPowerState now cp).2.power_state := rfl

theorem getPowerState_commands (now : Nat) (cp : CommandProcessor) :
    (getPowerState now cp).2.commands = cp.commands := by
  unfold getPowerState
  cases cp.power_state
  case powerOff => rfl
  case lampOn => rfl
  case warming t => dsimp; split <;> rfl
  case cooling t => dsimp; split <;> rfl

theorem get_value_ne_invalidPowerState (p : Param) :
    p.get_value ≠ Except.error CommandError.invalidPowerState := by
  unfold Param.get_value
  cases p.value <;> simp
  split <;> simp

theorem set_value_ne_invalidPowerState (p : Param) (v : String) :
    p.set_value v ≠ Except.error CommandError.invalidPowerState := by
  unfold Param.set_value
  cases p.validation <;> simp
  split
  · split <;> simp
  · simp

theorem processQuery_eval (now : Nat) (cp : CommandProcessor) (name : String) (param : Param)
    (hname : name ≠ "PWR") (hfind : hmGet cp.commands name = some param) :
    processQuery now cp name =
      ((match param.supported_in_power_off, (getPowerState now cp).1 with
        | true, _ => (match param.get_value with
                      | Except.ok v => Except.ok (name ++ "=" ++ v)
                      | Except.error e => Except.error e)
        | false, PowerState.lampOn => (match param.get_value with
                      | Except.ok v => Except.ok (name ++ "=" ++ v)
                      | Except.error e => Except.error e)
        | _, _ => Except.error CommandError.invalidPowerState),
       (getPowerState now cp).2) := by
  have hfind2 : hmGet (getPowerState now cp).2.commands name = some param := by
    rw [getPowerState_commands]; exact hfind
  unfold processQuery
  rw [if_neg hname]
  rcases hgp : getPowerState now cp with ⟨ps, cp2⟩
  rw [hgp] at hfind2
  dsimp at hfind2 ⊢
  rw [hfind2]
  rcases hflag : param.supported_in_power_off with _ | _
  · rcases hst : ps with _ | t | t | _ <;> cases hgv : param.get_value <;> simp [hflag, hgv]
  · cases hgv : param.get_value <;> simp [hflag, hgv]

theorem processSet_eval (now : Nat) (cp : CommandProcessor) (name value : String) (param : Param)
    (hname : name ≠ "PWR") (hfind : hmGet cp.commands name = some param) :
    processSet now cp name value =
      (match param.supported_in_power_off, (getPowerState now cp).1 with
       | true, _ => (match param.set_value value with
                     | Except.ok p2 => (Except.ok (),
                         { (getPowerState now cp).2 with
                            commands := hmInsert (getPowerState now cp).2.commands name p2 })
                     | Except.error e => (Except.error e, (getPowerState now cp).2))
       | false, PowerState.lampOn => (match param.set_value value with
                     | Except.ok p2 => (Except.ok (),
                         { (getPowerState now cp).2 with
                            commands := hmInsert (getPowerState now cp).2.commands name p2 })
                     | Except.error e => (Except.error e, (getPowerState now cp).2))
       | _, _ => (Except.error CommandError.invalidPowerState, (getPowerState now cp).2)) := by
  have hfind2 : hmGet (getPowerState now cp).2.commands name = some param := by
    rw [getPowerState_commands]; exact hfind
  unfold processSet
  rw [if_neg hname]
  rcases hgp : getPowerState now cp with ⟨ps, cp2⟩
  rw [hgp] at hfind2
  dsimp at hfind2 ⊢
  rw [hfind2]

theorem processQuery_snd (now : Nat) (cp : CommandProcessor) (cmd : String) :
    (processQuery now cp cmd).2 = (getPowerState now cp).2 := by
  unfold processQuery processPowerQuery
  rcases hgp : getPowerState now cp with ⟨ps, c2⟩
  dsimp
  repeat' split
  all_goals rfl

theorem processPowerSet_error (now : Nat) (cp cp2 : CommandProcessor) (value : String)
    (e : CommandError) (h : processPowerSet now cp value = (Except.error e, cp2)) :
    cp2 = cp := by
  unfold processPowerSet at h
  split at h
  · simp at h
  · split at h
    · simp at h
    · exact (congrArg Prod.snd h).symm

theorem processSet_error_state (now : Nat) (cp cp2 : CommandProcessor) (cmd value : String)
    (e : CommandError) (h : processSet now cp cmd value = (Except.error e, cp2)) :
    cp2.commands = cp.commands ∧
    (cp2.power_state = cp.power_state ∨
     cp2.power_state = (getPowerState now cp).2.power_state) := by
  have hcmds := getPowerState_commands now cp
  unfold processSet at h
  split at h
  · have hcc : cp2 = cp := processPowerSet_error now cp cp2 value e h
    exact hcc ▸ ⟨rfl, Or.inl rfl⟩
  · rcases hgp : getPowerState now cp with ⟨ps, c2⟩
    rw [hgp] at h hcmds
    dsimp at h hcmds ⊢
    split at h
    · split at h
      · split at h
        · simp at h
        · cases h
          simp [hcmds]
      · split at h
        · simp at h
        · cases h
          simp [hcmds]
      · cases h
        simp [hcmds]
    · cases h
      simp [hcmds]

/-! ## Claims -/

/-- Claim C1: the claim says a request that neither ends in `?` nor
matches the set-command regex makes `process_message` return
`InvalidCommand`.  The code instead calls `unwrap()` on the `None` that
`Regex::captures` returns there, i.e. it panics; the embedding value `none`
value witnesses the panic at the concrete request `HELLO`. -/
theorem c1_unmatched_request_panics :
    endsWithQmark "HELLO" = false ∧
    capturesSetCmd "HELLO" = none ∧
    processMessage 0 (CommandProcessor.new 2 1) "HELLO" = none :=
  ⟨rfl, rfl, rfl⟩

/-- Claim C4: for one decoded frame the I/O loop always writes the
two-byte terminator `\r:` (bytes 13, 58) last; a successful set writes
exactly those two bytes, and a processor error writes exactly
`ERR\r:` (bytes 69, 82, 82, 13, 58). -/
theorem c4_reply_terminator :
    (∀ r : Except CommandError (Option String), ∃ pre, replyBytes r = pre ++ [13, 58]) ∧
    replyBytes (Except.ok none) = [13, 58] ∧
    (∀ e : CommandError, replyBytes (Except.error e) = [69, 82, 82, 13, 58]) := by
  refine ⟨fun r => ⟨_, rfl⟩, rfl, fun e => rfl⟩

/-- Claim C6: the only power-state transitions are PowerOff→Warming on
power-up, LampOn→Cooling on power-down, Warming→LampOn and
Cooling→PowerOff on the elapsed timed advance; every other input is the
identity, and power-up in a transient state preserves the `startedAt`
timestamp. -/
theorem c6_transition_graph : ∀ now : Nat,
    (∀ s : PowerState, s.power_up now = s ∨
       (s = PowerState.powerOff ∧ s.power_up now = PowerState.warming now)) ∧
    (∀ s : PowerState, s.power_down now = s ∨
       (s = PowerState.lampOn ∧ s.power_down now = PowerState.cooling now)) ∧
    (∀ t, (PowerState.warming t).power_up now = PowerState.warming t) ∧
    (∀ t, (PowerState.cooling t).power_up now = PowerState.cooling t) ∧
    PowerState.lampOn.power_up now = PowerState.lampOn ∧
    PowerState.powerOff.power_up now = PowerState.warming now ∧
    PowerState.lampOn.power_down now = PowerState.cooling now ∧
    (∀ cp : CommandProcessor,
       (getPowerState now cp).2.power_state = cp.power_state ∨
       (∃ t, cp.power_state = PowerState.warming t ∧ cp.warming < now - t ∧
          (getPowerState now cp).2.power_state = PowerState.lampOn) ∨
       (∃ t, cp.power_state = PowerState.cooling t ∧ cp.cooling < now - t ∧
          (getPowerState now cp).2.power_state = PowerState.powerOff)) := by
  intro now
  refine ⟨fun s => ?_, fun s => ?_, fun t => rfl, fun t => rfl, rfl, rfl, rfl, fun cp => ?_⟩
  · cases s <;> simp [PowerState.power_up]
  · cases s <;> simp [PowerState.power_down]
  · cases hps : cp.power_state with
    | powerOff => exact Or.inl (by simp [getPowerState, hps])
    | lampOn => exact Or.inl (by simp [getPowerState, hps])
    | warming t =>
        by_cases hlt : cp.warming < now - t
        · exact Or.inr (Or.inl ⟨t, rfl, hlt, by simp [getPowerState, hps, hlt]⟩)
        · exact Or.inl (by simp [getPowerState, hps, hlt])
    | cooling t =>
        by_cases hlt : cp.cooling < now - t
        · exact Or.inr (Or.inr ⟨t, rfl, hlt, by simp [getPowerState, hps, hlt]⟩)
        · exact Or.inl (by simp [getPowerState, hps, hlt])

/-- Claim C8: validation is an unanchored substring match; in LampOn,
`VOL 9` succeeds under the one-or-more-digits pattern and stores `9`,
`VOL x` fails with InvalidValue, and the substring semantics also accepts
`x9y`. -/
theorem c8_substring_validation :
    ((processMessage 0 { CommandProcessor.new 2 1 with power_state := PowerState.lampOn } "VOL 9").map
       (fun r => (r.1, (hmGet r.2.commands "VOL").map Param.value))) =
      some (Except.ok none, some (some "9")) ∧
    ((processMessage 0 { CommandProcessor.new 2 1 with power_state := PowerState.lampOn } "VOL x").map
       (fun r => (r.1, r.2))) =
      some (Except.error CommandError.invalidValue,
            { CommandProcessor.new 2 1 with power_state := PowerState.lampOn }) ∧
    ((processMessage 0 { CommandProcessor.new 2 1 with power_state := PowerState.lampOn } "VOL x9y").map
       (fun r => (r.1, (hmGet r.2.commands "VOL").map Param.value))) =
      some (Except.ok none, some (some "x9y")) ∧
    isMatch DIGITS_RE "9" = true ∧ isMatch DIGITS_RE "x" = false :=
  ⟨rfl, rfl, rfl, rfl, rfl⟩

/-- Claim C5: the power code is read only after the timed advance and
maps PowerOff to `00`, LampOn to `01`, Warming to `02`, Cooling to `03`;
a `PWR?` query issued once the warming duration has elapsed replies
`PWR=01` and leaves the machine in LampOn, with no other request in
between. -/
theorem c5_power_code_after_advance (w c t now : Nat) (table : List (String × Param))
    (h : w < now - t) :
    PowerState.as_str PowerState.powerOff = "00" ∧
    PowerState.as_str PowerState.lampOn = "01" ∧
    PowerState.as_str (PowerState.warming t) = "02" ∧
    PowerState.as_str (PowerState.cooling t) = "03" ∧
    processMessage now ⟨table, PowerState.warming t, w, c⟩ "PWR?" =
      some (Except.ok (some "PWR=01"), ⟨table, PowerState.lampOn, w, c⟩) := by
  refine ⟨rfl, rfl, rfl, rfl, ?_⟩
  have he : endsWithQmark "PWR?" = true := rfl
  have hname : String.mk "PWR?".toList.dropLast = "PWR" := rfl
  simp only [processMessage, he, if_true, hname, processQuery, processPowerQuery,
    getPowerState]
  simp [h, PowerState.as_str]

/-- Claim C5 witness at warming 2 s, started at 0, queried at time 3. -/
theorem c5_power_code_after_advance_witness :
    2 < 3 - 0 ∧
    (PowerState.as_str PowerState.powerOff = "00" ∧
     PowerState.as_str PowerState.lampOn = "01" ∧
     PowerState.as_str (PowerState.warming 0) = "02" ∧
     PowerState.as_str (PowerState.cooling 0) = "03" ∧
     processMessage 3 ⟨actualCommands, PowerState.warming 0, 2, 1⟩ "PWR?" =
       some (Except.ok (some "PWR=01"), ⟨actualCommands, PowerState.lampOn, 2, 1⟩)) :=
  ⟨by decide, c5_power_code_after_advance 2 1 0 3 actualCommands (by decide)⟩

/-- Claim C10: `PWR ON` acts without running the timed advance: with the
cooling duration already elapsed it is still a no-op (the processor is
returned unchanged, still Cooling), and only a later request (here a
`PWR?` query) advances the state — to PowerOff, so the power-up is
lost. -/
theorem c10_power_on_skips_advance (t now w c : Nat) (table : List (String × Param))
    (h : c < now - t) :
    processMessage now ⟨table, PowerState.cooling t, w, c⟩ "PWR ON" =
      some (Except.ok none, ⟨table, PowerState.cooling t, w, c⟩) ∧
    processMessage now ⟨table, PowerState.cooling t, w, c⟩ "PWR?" =
      some (Except.ok (some "PWR=00"), ⟨table, PowerState.powerOff, w, c⟩) := by
  constructor
  · have he : endsWithQmark "PWR ON" = false := rfl
    have hcap : capturesSetCmd "PWR ON" = some ("PWR", "ON") := rfl
    simp only [processMessage, he, Bool.false_eq_true, if_false, hcap, processSet]
    simp [processPowerSet, PowerState.power_up]
  · have he : endsWithQmark "PWR?" = true := rfl
    have hname : String.mk "PWR?".toList.dropLast = "PWR" := rfl
    simp only [processMessage, he, if_true, hname, processQuery, processPowerQuery,
      getPowerState]
    simp [h, PowerState.as_str]

/-- Claim C10 witness at cooling 1 s, started at 0, requested at time 5. -/
theorem c10_power_on_skips_advance_witness :
    1 < 5 - 0 ∧
    (processMessage 5 ⟨actualCommands, PowerState.cooling 0, 2, 1⟩ "PWR ON" =
       some (Except.ok none, ⟨actualCommands, PowerState.cooling 0, 2, 1⟩) ∧
     processMessage 5 ⟨actualCommands, PowerState.cooling 0, 2, 1⟩ "PWR?" =
       some (Except.ok (some "PWR=00"), ⟨actualCommands, PowerState.powerOff, 2, 1⟩)) :=
  ⟨by decide, c10_power_on_skips_advance 0 5 2 1 actualCommands (by decide)⟩

/-- Claim C2 counterexample: on the two-frame chunk `A\r B\r` the decoder
returns the first frame `A` but clears its buffer (`buffer.clear()` after
`split_to`), so the follow-up call with an empty chunk yields no frame
instead of the second frame `B`. -/
theorem c2_counterexample :
    (Codec.decode (Codec.mk []) [65, 13, 66, 13]).1 = Except.ok (some "A") ∧
    (Codec.decode (Codec.mk []) [65, 13, 66, 13]).2.buffer = [] ∧
    (Codec.decode (Codec.decode (Codec.mk []) [65, 13, 66, 13]).2 []).1 = Except.ok none ∧
    (Codec.decode (Codec.decode (Codec.mk []) [65, 13, 66, 13]).2 []).1 ≠
      Except.ok (some "B") :=
  ⟨rfl, rfl, rfl, fun h => nomatch h⟩

/-- Claim C2 as amended: whenever the buffer plus chunk holds two or more
`0x0D` terminators, decode returns only the first frame (the bytes before
the first terminator, UTF-8 decoded) and discards everything after it —
the buffer is cleared, and a subsequent call with an empty chunk returns
no frame. -/
theorem c2_first_frame_and_discard (codec : Codec) (src : List Nat)
    (h : 2 ≤ (codec.buffer ++ src).count 13) :
    (∃ n, (codec.buffer ++ src).findIdx? (fun b => b = 13) = some n ∧
       (Codec.decode codec src).1 =
         (match utf8Decode ((codec.buffer ++ src).take n) with
          | some cs => Except.ok (some (String.mk cs))
          | none => Except.error ())) ∧
    (Codec.decode codec src).2.buffer = [] ∧
    (Codec.decode (Codec.decode codec src).2 []).1 = Except.ok none := by
  have hmem : 13 ∈ codec.buffer ++ src := by
    have : 0 < (codec.buffer ++ src).count 13 := by omega
    exact List.count_pos_iff.mp this
  have hfind : (codec.buffer ++ src).findIdx? (fun b => b = 13) ≠ none := by
    intro hn
    rw [List.findIdx?_eq_none_iff] at hn
    have := hn 13 hmem
    simp at this
  obtain ⟨n, hn⟩ := Option.ne_none_iff_exists.mp hfind
  have hbuf : (Codec.decode codec src).2 = Codec.mk [] := by
    unfold Codec.decode
    dsimp only
    rw [← hn]
  refine ⟨⟨n, hn.symm, ?_⟩, ?_, ?_⟩
  · unfold Codec.decode
    dsimp only
    rw [← hn]
  · rw [hbuf]
  · rw [hbuf]
    rfl

/-- Claim C2 amended witness on the two-frame chunk `A\r B\r`. -/
theorem c2_first_frame_and_discard_witness :
    2 ≤ ((Codec.mk []).buffer ++ [65, 13, 66, 13]).count 13 ∧
    ((∃ n, ((Codec.mk []).buffer ++ [65, 13, 66, 13]).findIdx? (fun b => b = 13) = some n ∧
        (Codec.decode (Codec.mk []) [65, 13, 66, 13]).1 =
          (match utf8Decode (((Codec.mk []).buffer ++ [65, 13, 66, 13]).take n) with
           | some cs => Except.ok (some (String.mk cs))
           | none => Except.error ())) ∧
     (Codec.decode (Codec.mk []) [65, 13, 66, 13]).2.buffer = [] ∧
     (Codec.decode (Codec.decode (Codec.mk []) [65, 13, 66, 13]).2 []).1 = Except.ok none) :=
  ⟨by decide, c2_first_frame_and_discard (Codec.mk []) [65, 13, 66, 13] (by decide)⟩

/-- Claim C3 counterexample: with warming elapsed, the erroring query
`XYZ?` (unknown parameter) still runs the timed advance inside
`get_power_state`, so the power state after the error is LampOn, not the
Warming it started in — the table and power state are not "exactly the
same". -/
theorem c3_counterexample :
    processMessage 3 ⟨actualCommands, PowerState.warming 0, 2, 1⟩ "XYZ?" =
      some (Except.error CommandError.invalidCommand,
            ⟨actualCommands, PowerState.lampOn, 2, 1⟩) ∧
    PowerState.lampOn ≠ PowerState.warming 0 :=
  ⟨rfl, fun h => nomatch h⟩

/-- Claim C3 as amended: when processing ends in a typed error the
parameter table is unchanged, and the power state is either unchanged or
equal to the result of the timed advance alone (which any non-power
request triggers before failing); the error itself never perturbs
state. -/
theorem c3_error_preserves_state (now : Nat) (cp cp2 : CommandProcessor) (message : String)
    (e : CommandError)
    (h : processMessage now cp message = some (Except.error e, cp2)) :
    cp2.commands = cp.commands ∧
    (cp2.power_state = cp.power_state ∨
     cp2.power_state = (getPowerState now cp).2.power_state) := by
  unfold processMessage at h
  split at h
  · rcases hpq : processQuery now cp (String.mk message.toList.dropLast) with ⟨res, c2⟩
    rw [hpq] at h
    dsimp at h
    cases res with
    | ok v => simp at h
    | error e2 =>
        simp at h
        have hsnd : c2 = (getPowerState now cp).2 := by
          have hq := processQuery_snd now cp (String.mk message.toList.dropLast)
          rw [hpq] at hq
          exact hq
        refine ⟨?_, Or.inr ?_⟩
        · rw [← h.2, hsnd, getPowerState_commands]
        · rw [← h.2, hsnd]
  · split at h
    · rename_i cap command value heq
      rcases hps : processSet now cp command value with ⟨res, c2⟩
      rw [hps] at h
      dsimp at h
      cases res with
      | ok u => simp at h
      | error e2 =>
          simp at h
          obtain ⟨hcm, hpw⟩ := processSet_error_state now cp c2 command value e2 hps
          exact ⟨h.2 ▸ hcm, h.2 ▸ hpw⟩
    · exact absurd h (by simp)

/-- Claim C3 amended witness at the erroring `XYZ?` query with warming
elapsed. -/
theorem c3_error_preserves_state_witness :
    processMessage 3 ⟨actualCommands, PowerState.warming 0, 2, 1⟩ "XYZ?" =
      some (Except.error CommandError.invalidCommand,
            ⟨actualCommands, PowerState.lampOn, 2, 1⟩) ∧
    ((⟨actualCommands, PowerState.lampOn, 2, 1⟩ : CommandProcessor).commands =
       (⟨actualCommands, PowerState.warming 0, 2, 1⟩ : CommandProcessor).commands ∧
     ((⟨actualCommands, PowerState.lampOn, 2, 1⟩ : CommandProcessor).power_state =
        (⟨actualCommands, PowerState.warming 0, 2, 1⟩ : CommandProcessor).power_state ∨
      (⟨actualCommands, PowerState.lampOn, 2, 1⟩ : CommandProcessor).power_state =
        (getPowerState 3 ⟨actualCommands, PowerState.warming 0, 2, 1⟩).2.power_state)) :=
  ⟨rfl, c3_error_preserves_state 3 ⟨actualCommands, PowerState.warming 0, 2, 1⟩
    ⟨actualCommands, PowerState.lampOn, 2, 1⟩ "XYZ?" CommandError.invalidCommand rfl⟩

/-- Claim C7: for a non-PWR parameter present in the table, query and set
fail with InvalidPowerState exactly when the parameter is not
power-off-accessible and the advanced power state is not LampOn; when the
gate is open the access proceeds to the parameter itself. -/
theorem c7_power_gate (now : Nat) (cp : CommandProcessor) (name value : String) (param : Param)
    (hname : name ≠ "PWR") (hfind : hmGet cp.commands name = some param) :
    ((processQuery now cp name).1 = Except.error CommandError.invalidPowerState ↔
       param.supported_in_power_off = false ∧ (getPowerState now cp).1 ≠ PowerState.lampOn) ∧
    ((processSet now cp name value).1 = Except.error CommandError.invalidPowerState ↔
       param.supported_in_power_off = false ∧ (getPowerState now cp).1 ≠ PowerState.lampOn) ∧
    (param.supported_in_power_off = true ∨ (getPowerState now cp).1 = PowerState.lampOn →
       (processQuery now cp name).1 =
         (match param.get_value with
          | Except.ok v => Except.ok (name ++ "=" ++ v)
          | Except.error e => Except.error e) ∧
       (processSet now cp name value).1 =
         (match param.set_value value with
          | Except.ok _ => Except.ok ()
          | Except.error e => Except.error e)) := by
  have hq := processQuery_eval now cp name param hname hfind
  have hs := processSet_eval now cp name value param hname hfind
  refine ⟨?_, ?_, ?_⟩
  · rw [hq]
    have hne := get_value_ne_invalidPowerState param
    rcases hflag : param.supported_in_power_off with _ | _ <;>
      rcases hst : (getPowerState now cp).1 with _ | t | t | _ <;>
      cases hgv : param.get_value <;>
      rw [hgv] at hne <;>
      simp [hflag, hst] <;>
      simpa using hne
  · rw [hs]
    have hne := set_value_ne_invalidPowerState param value
    rcases hflag : param.supported_in_power_off with _ | _ <;>
      rcases hst : (getPowerState now cp).1 with _ | t | t | _ <;>
      cases hsv : param.set_value value <;>
      rw [hsv] at hne <;>
      simp [hflag, hst] <;>
      simpa using hne
  · intro hopen
    rw [hq, hs]
    rcases hflag : param.supported_in_power_off with _ | _ <;>
      rcases hst : (getPowerState now cp).1 with _ | t | t | _ <;>
      cases hsv : param.set_value value <;>
      simp [hflag, hst, hsv] <;>
      simp [hflag, hst] at hopen

/-- Claim C7 witness: `LAMP` is not power-off-accessible, so in PowerOff
both its query and set fail with InvalidPowerState. -/
theorem c7_power_gate_witness :
    ("LAMP" ≠ "PWR" ∧
     hmGet (CommandProcessor.new 2 1).commands "LAMP" =
       some (Param.new LAMP_HOURS_DEFAULT none false)) ∧
    (((processQuery 0 (CommandProcessor.new 2 1) "LAMP").1 =
        Except.error CommandError.invalidPowerState ↔
       (Param.new LAMP_HOURS_DEFAULT none false).supported_in_power_off = false ∧
         (getPowerState 0 (CommandProcessor.new 2 1)).1 ≠ PowerState.lampOn) ∧
     ((processSet 0 (CommandProcessor.new 2 1) "LAMP" "5").1 =
        Except.error CommandError.invalidPowerState ↔
       (Param.new LAMP_HOURS_DEFAULT none false).supported_in_power_off = false ∧
         (getPowerState 0 (CommandProcessor.new 2 1)).1 ≠ PowerState.lampOn) ∧
     ((Param.new LAMP_HOURS_DEFAULT none false).supported_in_power_off = true ∨
        (getPowerState 0 (CommandProcessor.new 2 1)).1 = PowerState.lampOn →
       (processQuery 0 (CommandProcessor.new 2 1) "LAMP").1 =
         (match (Param.new LAMP_HOURS_DEFAULT none false).get_value with
          | Except.ok v => Except.ok ("LAMP" ++ "=" ++ v)
          | Except.error e => Except.error e) ∧
       (processSet 0 (CommandProcessor.new 2 1) "LAMP" "5").1 =
         (match (Param.new LAMP_HOURS_DEFAULT none false).set_value "5" with
          | Except.ok _ => Except.ok ()
          | Except.error e => Except.error e))) :=
  ⟨⟨by decide, rfl⟩,
   c7_power_gate 0 (CommandProcessor.new 2 1) "LAMP" "5"
     (Param.new LAMP_HOURS_DEFAULT none false) (by decide) rfl⟩

/-- Every parameter of the table whose validation accepts `INIT` and
whose value is readable has a default that its own validation accepts
(checked by evaluation over the whole table). -/
theorem table_init_default :
    actualCommands.all (fun pr =>
      match pr.2.validation, pr.2.value with
      | some re, some _ => !(isMatch re "INIT") || isMatch re pr.2.default
      | _, _ => true) = true := by decide

/-- Claim C9: after a successful `set_value` on a table parameter whose
value is present, the stored value is accepted by the validation
regex of that parameter, and a successful set with the literal `INIT` stores
exactly the default. -/
theorem c9_set_invariant (name : String) (param param2 : Param) (value : String)
    (hmem : (name, param) ∈ actualCommands)
    (hval : param.value.isSome = true)
    (hset : param.set_value value = Except.ok param2) :
    (∃ re v2, param2.validation = some re ∧ param2.value = some v2 ∧ isMatch re v2 = true) ∧
    (value = "INIT" → param2.value = some param.default) := by
  unfold Param.set_value at hset
  cases hv : param.validation with
  | none => rw [hv] at hset; simp at hset
  | some re =>
      rw [hv] at hset
      dsimp at hset
      by_cases hmatch : isMatch re value
      · rw [if_pos hmatch, hval] at hset
        simp at hset
        by_cases hI : value = "INIT"
        · have hinit : isMatch re "INIT" = true := hI ▸ hmatch
          obtain ⟨v0, hv0⟩ := Option.isSome_iff_exists.mp hval
          have hall := List.all_eq_true.mp table_init_default (name, param) hmem
          rw [hv, hv0] at hall
          dsimp at hall
          rw [hinit] at hall
          simp at hall
          rw [hI] at hset
          simp at hset
          subst hset
          exact ⟨⟨re, param.default, by simp [hv], by simp, hall⟩, fun _ => by simp⟩
        · rw [if_neg hI] at hset
          subst hset
          exact ⟨⟨re, value, by simp [hv], by simp, hmatch⟩, fun hI2 => absurd hI2 hI⟩
      · rw [if_neg hmatch] at hset
        simp at hset

/-- Claim C9 witness: setting `VOL` to `5` stores `5`, which the digits
pattern accepts. -/
theorem c9_set_invariant_witness :
    (("VOL", Param.new "90" (some DIGITS_RE) false) ∈ actualCommands ∧
     (Param.new "90" (some DIGITS_RE) false).value.isSome = true ∧
     (Param.new "90" (some DIGITS_RE) false).set_value "5" =
       Except.ok (Param.mk "90" (some "5") (some DIGITS_RE) false)) ∧
    ((∃ re v2, (Param.mk "90" (some "5") (some DIGITS_RE) false).validation = some re ∧
        (Param.mk "90" (some "5") (some DIGITS_RE) false).value = some v2 ∧
        isMatch re v2 = true) ∧
     ("5" = "INIT" → (Param.mk "90" (some "5") (some DIGITS_RE) false).value =
        some (Param.new "90" (some DIGITS_RE) false).default)) :=
  ⟨⟨by decide, rfl, rfl⟩,
   c9_set_invariant "VOL" (Param.new "90" (some DIGITS_RE) false)
     (Param.mk "90" (some "5") (some DIGITS_RE) false) "5" (by decide) rfl rfl⟩

end Escvp21
